import Mathlib

/-!
Verification of the authentication and credential-migration flow of the
Backendandfrontend repository (Express/MySQL backend).

JavaScript strings are modelled as lists of characters (`Str`), so that all
string operations used by the handlers (startsWith, slice, trim, equality,
emptiness) are executable and kernel-reducible.  JS `undefined`/absent body
fields are modelled with `Option Str`; the JS coercion `String(x ?? "")`
becomes `Option.getD · []`.  A missing environment variable and the empty
string are both JS-falsy, so environment values are plain `Str` with `[]`
standing for "unset or empty".

The MySQL table `tbl_users` is a list of `User` records; `SELECT ... WHERE
username = ? LIMIT 1` is `List.find?`, `UPDATE ... WHERE id = ?` is a map
over the list, and `INSERT` appends.  Whether an awaited `db.query` write
throws (sending control to the handler's catch block) is an explicit boolean
parameter of each handler.

bcrypt is modelled by an executable salted hash whose encoded output carries
the real marker prefix "$2b$10$" (bcryptjs with cost 10), followed by a
length-tagged copy of the plaintext and the salt; `bcrypt.compare` checks
that shape.  jwt.sign is modelled as a structure recording the claims, the
issuance time, the expiry and the signing secret; jwt.verify inside the
middleware is an abstract decoding function parameter, since only its
success or failure is observable there.
-/

namespace Backend

/-- Character-list model of a JavaScript string. -/
abbrev Str := List Char

/-- Converts a Lean string literal to the model type. -/
def str (s : String) : Str := s.data

/-- Model of JS `String.prototype.startsWith`. -/
def strStartsWith (s p : Str) : Bool := p.isPrefixOf s

/-- Whitespace test used by the model of JS `trim`. -/
def isSpace (c : Char) : Bool := c == ' ' || c == '\t' || c == '\n' || c == '\r'

/-- Model of JS `String.prototype.trim`: surrounding whitespace removed. -/
def strTrim (s : Str) : Str := ((s.dropWhile isSpace).reverse.dropWhile isSpace).reverse

/-! Password hashing service (bcryptjs, cost 10). -/

/-- Model of `bcrypt.hash(pw, 10)`: the encoded output starts with the
bcrypt marker "$2b$10$", then a length-tagged copy of the plaintext and the
salt, so that distinct plaintexts with the same salt give distinct hashes
and `bcryptCompare` can re-verify. -/
def bcryptHash (salt : Nat) (pw : Str) : Str :=
  str "$2b$10$" ++ (toString pw.length).data ++ str "$" ++ pw ++ str "$" ++ (toString salt).data

/-- Model of `bcrypt.compare(pw, stored)`: true exactly when `stored` has the
shape produced by `bcryptHash _ pw` (any salt); false on any mismatch or
malformed stored value, never throwing — as the bcryptjs contract states. -/
def bcryptCompare (pw stored : Str) : Bool :=
  strStartsWith stored (str "$2b$10$" ++ (toString pw.length).data ++ str "$" ++ pw ++ str "$")

/-! Data model: the tbl_users table (see the CREATE TABLE in index.js). -/

/-- Row of `tbl_users`.  NULL text columns are identified with the empty
string, which is how the handlers round-trip them (`x || null` on write,
`String(x ?? "")` on read). -/
structure User where
  id : Nat
  firstname : Str
  fullname : Str
  lastname : Str
  username : Str
  password : Str
  address : Str
  sex : Str
  birthday : Str
  status : Str
  updated_at : Nat
deriving DecidableEq, Repr

/-- Credential store: the `tbl_users` table as a list of rows. -/
abbrev Store := List User

/-- Model of `SELECT ... FROM tbl_users WHERE username = ? LIMIT 1`. -/
def findByUsername (s : Store) (u : Str) : Option User :=
  s.find? (fun r => r.username == u)

/-- Login success payload user object: the selected row with the `password`
field omitted (`const { password: _omit, ...safeUser } = user`). -/
structure SafeUser where
  id : Nat
  firstname : Str
  fullname : Str
  lastname : Str
  username : Str
  status : Str
deriving DecidableEq, Repr

/-- Drops the password field from a selected row. -/
def omitPassword (u : User) : SafeUser :=
  ⟨u.id, u.firstname, u.fullname, u.lastname, u.username, u.status⟩

/-! Token issuer (jsonwebtoken). -/

/-- Claims object passed to `jwt.sign` by the login handler. -/
structure Claims where
  role : Str
  id : Nat
  fullname : Str
  lastname : Str
  status : Str
deriving DecidableEq, Repr

/-- Signed token: the claims together with issuance time, expiry and the
secret that signed it (standing for the signature). -/
structure Token where
  claims : Claims
  iat : Nat
  exp : Nat
  secret : Str
deriving DecidableEq, Repr

/-- Model of `jwt.sign(claims, secret, { expiresIn: "1h" })`: expiry is
exactly 3600 seconds after issuance. -/
def jwtSign (c : Claims) (secret : Str) (now : Nat) : Token :=
  ⟨c, now, now + 3600, secret⟩

/-! Environment configuration. -/

/-- Environment slice read by login and the middleware; `[]` models an unset
or empty variable (both JS-falsy). -/
structure Env where
  secretKeyEnv : Str
  jwtSecretEnv : Str
deriving DecidableEq, Repr

/-- Model of `process.env.SECRET_KEY || process.env.JWT_SECRET`. -/
def resolveSecret (e : Env) : Str :=
  if e.secretKeyEnv.isEmpty then e.jwtSecretEnv else e.secretKeyEnv

/-! Login handler (src/backend/routes/login.js, handleLogin). -/

/-- Request body of POST /login; absent fields are `none`. -/
structure LoginBody where
  username : Option Str
  password : Option Str
deriving DecidableEq, Repr

/-- Responses the login handler can send. -/
inductive LoginResponse where
  | badRequest (error : Str)
  | unauthorized (error : Str)
  | serverError (error : Str)
  | success (message : Str) (token : Token) (user : SafeUser)
deriving DecidableEq, Repr

/-- HTTP status code of each login response. -/
def LoginResponse.statusCode : LoginResponse → Nat
  | .badRequest _ => 400
  | .unauthorized _ => 401
  | .serverError _ => 500
  | .success _ _ _ => 200

/-- Tail of handleLogin after the password check passed: the SECRET_KEY
check followed by jwt.sign and the success payload (login.js lines 201-217). -/
def issueAndRespond (user : User) (env : Env) (now : Nat) (store : Store) :
    LoginResponse × Store :=
  let secret := resolveSecret env
  if secret.isEmpty then (.serverError (str "Server missing SECRET_KEY"), store)
  else
    (.success (str "Login successful")
      (jwtSign ⟨str "user", user.id, user.fullname, user.lastname, user.status⟩ secret now)
      (omitPassword user), store)

/-- Model of handleLogin (login.js lines 162-222).  `salt` is the salt
bcrypt draws for the migration hash, `updateOk` is whether the awaited
migration UPDATE succeeds (false = it throws, landing in the catch block
which answers 500 "Login failed"), `now` is the clock used both by the SQL
NOW() and by jwt issuance. -/
def handleLogin (store : Store) (body : LoginBody) (env : Env)
    (salt : Nat) (updateOk : Bool) (now : Nat) : LoginResponse × Store :=
  let username := strTrim (body.username.getD [])
  let password := body.password.getD []
  if username.isEmpty || password.isEmpty then
    (.badRequest (str "username/password is required"), store)
  else
    match findByUsername store username with
    | none => (.unauthorized (str "User not found"), store)
    | some user =>
      if strStartsWith user.password (str "$2") then
        if bcryptCompare password user.password then
          issueAndRespond user env now store
        else (.unauthorized (str "Invalid password"), store)
      else
        if password == user.password then
          if updateOk then
            issueAndRespond user env now
              (store.map fun r =>
                if r.id == user.id then
                  { r with password := bcryptHash salt password, updated_at := now }
                else r)
          else (.serverError (str "Login failed"), store)
        else (.unauthorized (str "Invalid password"), store)

/-! Token verifier middleware (src/backend/middleware/auth.js). -/

/-- Outcome of the middleware: one of the three early JSON responses, or
`ok claims` meaning `req.user = decoded; next()`. -/
inductive AuthResult where
  | missingToken
  | missingSecret
  | invalidToken
  | ok (claims : Claims)
deriving DecidableEq, Repr

/-- HTTP status code of each middleware response (`none` when the request
is passed on to the next handler). -/
def AuthResult.statusCode : AuthResult → Option Nat
  | .missingToken => some 401
  | .missingSecret => some 500
  | .invalidToken => some 401
  | .ok _ => none

/-- Token extraction of auth.js lines 6-9:
`authHeader.startsWith("Bearer ") ? authHeader.slice(7).trim() : ""`. -/
def extractToken (authHeader : Str) : Str :=
  if strStartsWith authHeader (str "Bearer ") then strTrim (authHeader.drop 7) else []

/-- Model of the verifyToken middleware (auth.js lines 4-26).  `header` is
`req.headers.authorization` (`none` when absent); `decode` abstracts
`jwt.verify`, returning the decoded claims or `none` when it throws
(invalid signature, malformed structure, or expired timestamp). -/
def verifyToken (header : Option Str) (env : Env)
    (decode : Str → Str → Option Claims) : AuthResult :=
  let token := extractToken (header.getD [])
  if token.isEmpty then .missingToken
  else
    let secret := resolveSecret env
    if secret.isEmpty then .missingSecret
    else
      match decode token secret with
      | some c => .ok c
      | none => .invalidToken

/-! Registration handlers: handleRegister in src/backend/routes/login.js
(identical password logic in the users route file's second variant POST /),
and the users route file's first variant POST / which stores five columns. -/

/-- Request body of POST /register and POST /users; absent fields are `none`. -/
structure RegisterBody where
  firstname : Option Str
  fullname : Option Str
  lastname : Option Str
  username : Option Str
  password : Option Str
  address : Option Str
  sex : Option Str
  birthday : Option Str
deriving DecidableEq, Repr

/-- Responses of handleRegister (login.js). -/
inductive RegisterResponse where
  | badRequest (error : Str)
  | conflict (error : Str)
  | serverError (error : Str)
  | created (id : Nat) (firstname fullname lastname username address sex birthday : Str)
deriving DecidableEq, Repr

/-- Model of handleRegister (login.js lines 45-96).  `newId` is the
auto-increment id the INSERT would assign; `insertOk` is whether the awaited
INSERT succeeds (false = it throws, landing in the catch block answering
500 "Insert failed"); `now` feeds the timestamp column defaults. -/
def handleRegister (store : Store) (body : RegisterBody) (salt newId : Nat)
    (insertOk : Bool) (now : Nat) : RegisterResponse × Store :=
  let firstname := strTrim (body.firstname.getD [])
  let fullname := strTrim (body.fullname.getD [])
  let lastname := strTrim (body.lastname.getD [])
  let username := strTrim (body.username.getD [])
  let password := body.password.getD []
  let address := strTrim (body.address.getD [])
  let sex := strTrim (body.sex.getD [])
  let birthday := strTrim (body.birthday.getD [])
  if username.isEmpty then (.badRequest (str "Username is required"), store)
  else if password.isEmpty then (.badRequest (str "Password is required"), store)
  else if (findByUsername store username).isSome then
    (.conflict (str "Username already exists"), store)
  else if insertOk then
    (.created newId firstname fullname lastname username address sex birthday,
     store ++ [⟨newId, firstname, fullname, lastname, username,
               bcryptHash salt password, address, sex, birthday, str "active", now⟩])
  else (.serverError (str "Insert failed"), store)

/-- Responses of the first-variant POST /users handler. -/
inductive CreateV1Response where
  | badRequest (error : Str)
  | conflict (error : Str)
  | serverError (error : Str)
  | created (id : Nat) (firstname fullname lastname username : Str)
deriving DecidableEq, Repr

/-- Model of the first users route variant's POST / handler (lines 84-120 of
that file): like handleRegister but it reads only five body fields and the
INSERT lists only the five corresponding columns, leaving address, sex and
birthday NULL. -/
def usersCreate (store : Store) (body : RegisterBody) (salt newId : Nat)
    (insertOk : Bool) (now : Nat) : CreateV1Response × Store :=
  let firstname := strTrim (body.firstname.getD [])
  let fullname := strTrim (body.fullname.getD [])
  let lastname := strTrim (body.lastname.getD [])
  let username := strTrim (body.username.getD [])
  let password := body.password.getD []
  if username.isEmpty then (.badRequest (str "Username is required"), store)
  else if password.isEmpty then (.badRequest (str "Password is required"), store)
  else if (findByUsername store username).isSome then
    (.conflict (str "Username already exists"), store)
  else if insertOk then
    (.created newId firstname fullname lastname username,
     store ++ [⟨newId, firstname, fullname, lastname, username,
               bcryptHash salt password, [], [], [], str "active", now⟩])
  else (.serverError (str "Insert failed"), store)

/-! Update handlers: updateUser in the second users route variant (shared by
PUT / and PUT /:id), and the first variant's PUT /:id handler. -/

/-- Request body of the update handlers; absent fields are `none` and are
left out of the UPDATE's SET list. -/
structure UpdateBody where
  firstname : Option Str
  fullname : Option Str
  lastname : Option Str
  username : Option Str
  status : Option Str
  password : Option Str
  address : Option Str
  sex : Option Str
  birthday : Option Str
deriving DecidableEq, Repr

/-- Responses of the update handlers. -/
inductive UpdateResponse where
  | badRequest (error : Str)
  | conflict (error : Str)
  | notFound (error : Str)
  | serverError (error : Str)
  | updated (message : Str)
deriving DecidableEq, Repr

/-- Effect on one matched row of the second variant's UPDATE statement:
every provided field is written (trimmed where the handler trims, the
password as its bcrypt hash) and updated_at is refreshed. -/
def applyUserUpdate (body : UpdateBody) (salt now : Nat) (r : User) : User :=
  { r with
    username := (body.username.map strTrim).getD r.username
    firstname := (body.firstname.map strTrim).getD r.firstname
    fullname := (body.fullname.map strTrim).getD r.fullname
    lastname := (body.lastname.map strTrim).getD r.lastname
    address := (body.address.map strTrim).getD r.address
    sex := (body.sex.map strTrim).getD r.sex
    birthday := (body.birthday.map strTrim).getD r.birthday
    status := body.status.getD r.status
    password := (body.password.map (bcryptHash salt)).getD r.password
    updated_at := now }

/-- True when at least one SET field would be pushed by the second variant. -/
def fieldsProvided (body : UpdateBody) : Bool :=
  body.username.isSome || body.firstname.isSome || body.fullname.isSome ||
  body.lastname.isSome || body.address.isSome || body.sex.isSome ||
  body.birthday.isSome || body.status.isSome || body.password.isSome

/-- Execution of the awaited UPDATE and the affectedRows check shared by the
update handlers: a throwing query lands in the catch block (500), zero
matched rows answer 404, otherwise the matched row is rewritten. -/
def runUpdate (store : Store) (id : Nat) (apply : User → User)
    (updateOk : Bool) : UpdateResponse × Store :=
  if updateOk then
    if store.any (fun r => r.id == id) then
      (.updated (str "User updated successfully"),
       store.map fun r => if r.id == id then apply r else r)
    else (.notFound (str "User not found"), store)
  else (.serverError (str "Update failed"), store)

/-- Part of updateUser after the username checks: the password emptiness
check, then the fields-empty check, then the UPDATE. -/
def updateUserTail (store : Store) (id : Nat) (body : UpdateBody)
    (salt : Nat) (updateOk : Bool) (now : Nat) : UpdateResponse × Store :=
  match body.password with
  | some pw =>
    if pw.isEmpty then (.badRequest (str "Password cannot be empty"), store)
    else runUpdate store id (applyUserUpdate body salt now) updateOk
  | none =>
    if fieldsProvided body then runUpdate store id (applyUserUpdate body salt now) updateOk
    else (.badRequest (str "No fields to update"), store)

/-- Model of updateUser in the second users route variant (lines 750-830 of
that file).  `rawId` is `Number(rawId)` already applied: `none` stands for a
non-integer result, so the guard `!Number.isInteger(id) || id <= 0` becomes
the `none` and `i ≤ 0` cases. -/
def updateUser (store : Store) (rawId : Option Int) (body : UpdateBody)
    (salt : Nat) (updateOk : Bool) (now : Nat) : UpdateResponse × Store :=
  match rawId with
  | none => (.badRequest (str "Invalid id"), store)
  | some i =>
    if i ≤ 0 then (.badRequest (str "Invalid id"), store)
    else
      match body.username with
      | some raw =>
        if (strTrim raw).isEmpty then (.badRequest (str "Username cannot be empty"), store)
        else if store.any (fun r => r.username == strTrim raw && !(r.id == i.toNat)) then
          (.conflict (str "Username already exists"), store)
        else updateUserTail store i.toNat body salt updateOk now
      | none => updateUserTail store i.toNat body salt updateOk now

/-- Effect on one matched row of the first variant's UPDATE statement: it
reads only username, firstname, fullname, lastname, status and password. -/
def applyUserUpdateV1 (body : UpdateBody) (salt now : Nat) (r : User) : User :=
  { r with
    username := (body.username.map strTrim).getD r.username
    firstname := (body.firstname.map strTrim).getD r.firstname
    fullname := (body.fullname.map strTrim).getD r.fullname
    lastname := (body.lastname.map strTrim).getD r.lastname
    status := body.status.getD r.status
    password := (body.password.map (bcryptHash salt)).getD r.password
    updated_at := now }

/-- True when at least one SET field would be pushed by the first variant. -/
def fieldsProvidedV1 (body : UpdateBody) : Bool :=
  body.username.isSome || body.firstname.isSome || body.fullname.isSome ||
  body.lastname.isSome || body.status.isSome || body.password.isSome

/-- Part of usersUpdate after the username checks. -/
def usersUpdateTail (store : Store) (id : Nat) (body : UpdateBody)
    (salt : Nat) (updateOk : Bool) (now : Nat) : UpdateResponse × Store :=
  match body.password with
  | some pw =>
    if pw.isEmpty then (.badRequest (str "Password cannot be empty"), store)
    else runUpdate store id (applyUserUpdateV1 body salt now) updateOk
  | none =>
    if fieldsProvidedV1 body then runUpdate store id (applyUserUpdateV1 body salt now) updateOk
    else (.badRequest (str "No fields to update"), store)

/-- Model of the first users route variant's PUT /:id handler (lines 289-342
of that file). -/
def usersUpdate (store : Store) (rawId : Option Int) (body : UpdateBody)
    (salt : Nat) (updateOk : Bool) (now : Nat) : UpdateResponse × Store :=
  match rawId with
  | none => (.badRequest (str "Invalid id"), store)
  | some i =>
    if i ≤ 0 then (.badRequest (str "Invalid id"), store)
    else
      match body.username with
      | some raw =>
        if (strTrim raw).isEmpty then (.badRequest (str "Username cannot be empty"), store)
        else if store.any (fun r => r.username == strTrim raw && !(r.id == i.toNat)) then
          (.conflict (str "Username already exists"), store)
        else usersUpdateTail store i.toNat body salt updateOk now
      | none => usersUpdateTail store i.toNat body salt updateOk now

/-! Specification-side model of the strict header contract, for comparison
with the code's verifier. -/

/-- Modelled from the spec: extraction of the bearer token "strictly in the
form Bearer <token> (case-sensitive scheme marker, single space separator)"
— the token is the verbatim remainder after the seven leading characters,
with no whitespace tolerance. -/
def extractTokenSpec (authHeader : Str) : Str :=
  if strStartsWith authHeader (str "Bearer ") then authHeader.drop 7 else []

/-- Modelled from the spec: the verifier of spec section 4.4 built on the
strict extraction; otherwise identical to the code's verifier. -/
def verifyTokenSpec (header : Option Str) (env : Env)
    (decode : Str → Str → Option Claims) : AuthResult :=
  let token := extractTokenSpec (header.getD [])
  if token.isEmpty then .missingToken
  else
    let secret := resolveSecret env
    if secret.isEmpty then .missingSecret
    else
      match decode token secret with
      | some c => .ok c
      | none => .invalidToken

/-! Concrete data for the closed runs used by counterexamples and
witnesses. -/

/-- Concrete legacy-plaintext user row, as in spec scenario 6. -/
def sampleUser : User :=
  ⟨1, str "J", str "John A", str "Doe", str "john", str "1234", [], [], [], str "active", 0⟩

/-- Concrete one-row store. -/
def sampleStore : Store := [sampleUser]

/-- Concrete well-formed login request matching sampleUser. -/
def sampleBody : LoginBody := ⟨some (str "john"), some (str "1234")⟩

/-- Concrete environment with the secret set through SECRET_KEY. -/
def sampleEnv : Env := ⟨str "s", []⟩

/-- Claims attached to the token sampleDecode accepts. -/
def sampleClaims : Claims := ⟨str "user", 1, str "John A", str "Doe", str "active"⟩

/-- Concrete decoder standing for jwt.verify: it accepts exactly the token
"abc" under the secret "s". -/
def sampleDecode : Str → Str → Option Claims :=
  fun t s => if t == str "abc" && s == str "s" then some sampleClaims else none

end Backend

namespace Backend

/-- Every list is a prefix (in the Boolean sense) of itself extended. -/
theorem isPrefixOf_append_self (l t : Str) : l.isPrefixOf (l ++ t) = true := by
  induction l with
  | nil => simp [List.isPrefixOf]
  | cons a as ih => simp [List.isPrefixOf, ih]

/-- The modelled bcrypt output always carries the "$2" marker. -/
theorem bcryptHash_marker (salt : Nat) (pw : Str) :
    strStartsWith (bcryptHash salt pw) (str "$2") = true := by
  simp [bcryptHash, strStartsWith, str, List.isPrefixOf]

/-- bcrypt verification succeeds on a hash of the same plaintext. -/
theorem bcryptCompare_hash (salt : Nat) (pw : Str) :
    bcryptCompare pw (bcryptHash salt pw) = true := by
  simp [bcryptCompare, bcryptHash, strStartsWith, List.append_assoc, isPrefixOf_append_self]

/-- Lookup by username commutes with a username-preserving rewrite of the
table. -/
theorem findByUsername_map (store : Store) (un : Str) (f : User → User)
    (hf : ∀ r, (f r).username = r.username) :
    findByUsername (store.map f) un = (findByUsername store un).map f := by
  unfold findByUsername
  rw [List.find?_map]
  have hp : ((fun r => r.username == un) ∘ f) = (fun r : User => r.username == un) := by
    funext r
    simp [Function.comp, hf]
  rw [hp]

/-- The issuance tail never touches the store. -/
theorem issueAndRespond_snd (user : User) (env : Env) (now : Nat) (s : Store) :
    (issueAndRespond user env now s).2 = s := by
  cases h : (resolveSecret env).isEmpty <;> simp [issueAndRespond, h]

/-- The issuance tail answers the config error when the secret resolves
empty and the success payload otherwise. -/
theorem issueAndRespond_cases (user : User) (env : Env) (now : Nat) (s : Store) :
    ((resolveSecret env).isEmpty = true ∧
      issueAndRespond user env now s = (.serverError (str "Server missing SECRET_KEY"), s))
  ∨ ((resolveSecret env).isEmpty = false ∧
      issueAndRespond user env now s =
        (.success (str "Login successful")
          (jwtSign ⟨str "user", user.id, user.fullname, user.lastname, user.status⟩
            (resolveSecret env) now)
          (omitPassword user), s)) := by
  unfold issueAndRespond
  cases h : (resolveSecret env).isEmpty <;> simp [h]

/-- Unfolds handleLogin on the path where both fields validated and the
lookup found a row. -/
theorem handleLogin_of_found (store : Store) (body : LoginBody) (env : Env)
    (salt : Nat) (updateOk : Bool) (now : Nat) (user : User)
    (hU : (strTrim (body.username.getD [])).isEmpty = false)
    (hP : (body.password.getD []).isEmpty = false)
    (hfind : findByUsername store (strTrim (body.username.getD [])) = some user) :
    handleLogin store body env salt updateOk now =
      if strStartsWith user.password (str "$2") then
        if bcryptCompare (body.password.getD []) user.password then
          issueAndRespond user env now store
        else (.unauthorized (str "Invalid password"), store)
      else if body.password.getD [] == user.password then
        if updateOk then
          issueAndRespond user env now (store.map fun r =>
            if r.id == user.id then
              { r with password := bcryptHash salt (body.password.getD []), updated_at := now }
            else r)
        else (.serverError (str "Login failed"), store)
      else (.unauthorized (str "Invalid password"), store) := by
  simp [handleLogin, hU, hP, hfind]

/-- Unfolds handleLogin on the user-not-found path. -/
theorem handleLogin_of_notfound (store : Store) (body : LoginBody) (env : Env)
    (salt : Nat) (updateOk : Bool) (now : Nat)
    (hU : (strTrim (body.username.getD [])).isEmpty = false)
    (hP : (body.password.getD []).isEmpty = false)
    (hfind : findByUsername store (strTrim (body.username.getD [])) = none) :
    handleLogin store body env salt updateOk now =
      (.unauthorized (str "User not found"), store) := by
  simp [handleLogin, hU, hP, hfind]

/-- Unfolds handleLogin on the failed-validation path. -/
theorem handleLogin_of_empty (store : Store) (body : LoginBody) (env : Env)
    (salt : Nat) (updateOk : Bool) (now : Nat)
    (h : (strTrim (body.username.getD [])).isEmpty = true ∨ (body.password.getD []).isEmpty = true) :
    handleLogin store body env salt updateOk now =
      (.badRequest (str "username/password is required"), store) := by
  unfold handleLogin
  rcases h with h | h <;> simp [h]

end Backend

namespace Backend

/-- Lookup after the migration rewrite finds the migrated row. -/
theorem findByUsername_migrate (store : Store) (un : Str) (user : User)
    (newPass : Str) (now : Nat)
    (hfind : findByUsername store un = some user) :
    findByUsername (store.map fun r =>
        if r.id == user.id then { r with password := newPass, updated_at := now } else r) un
      = some { user with password := newPass, updated_at := now } := by
  rw [findByUsername_map store un _
    (by intro r; by_cases h : (r.id == user.id) = true <;> simp [h]), hfind]
  simp

/-- C7: a login request whose username is empty after trimming or whose
password is empty (taken verbatim) gets the 400 response, the store is
returned untouched, and the response does not depend on the store at all,
so no credential-store access is observable. -/
theorem login_empty_input_bad_request (store : Store) (body : LoginBody) (env : Env)
    (salt : Nat) (updateOk : Bool) (now : Nat)
    (h : (strTrim (body.username.getD [])).isEmpty = true ∨ (body.password.getD []).isEmpty = true) :
    handleLogin store body env salt updateOk now =
      (.badRequest (str "username/password is required"), store)
    ∧ ∀ store' : Store, (handleLogin store' body env salt updateOk now).1 =
        (handleLogin store body env salt updateOk now).1 := by
  refine ⟨handleLogin_of_empty store body env salt updateOk now h, fun store' => ?_⟩
  rw [handleLogin_of_empty store body env salt updateOk now h,
    handleLogin_of_empty store' body env salt updateOk now h]

/-- C6: when the user row is found but the submitted password fails the
credential check of whichever branch applies, the handler answers 401
"Invalid password" and the store — hence the stored password and
updated_at — is unchanged. -/
theorem login_wrong_password_unauthorized (store : Store) (body : LoginBody) (env : Env)
    (salt : Nat) (updateOk : Bool) (now : Nat) (user : User)
    (hU : (strTrim (body.username.getD [])).isEmpty = false)
    (hP : (body.password.getD []).isEmpty = false)
    (hFind : findByUsername store (strTrim (body.username.getD [])) = some user)
    (hMismatch : (if strStartsWith user.password (str "$2") then
        bcryptCompare (body.password.getD []) user.password
      else body.password.getD [] == user.password) = false) :
    handleLogin store body env salt updateOk now =
      (.unauthorized (str "Invalid password"), store) := by
  have hrun := handleLogin_of_found store body env salt updateOk now user hU hP hFind
  cases hB : strStartsWith user.password (str "$2")
  · rw [hB] at hrun hMismatch
    rw [if_neg Bool.false_ne_true] at hrun hMismatch
    rw [hMismatch, if_neg Bool.false_ne_true] at hrun
    exact hrun
  · rw [hB] at hrun hMismatch
    rw [if_pos rfl] at hrun hMismatch
    rw [hMismatch, if_neg Bool.false_ne_true] at hrun
    exact hrun

/-- C4: with a found row, the handler authenticates through bcrypt.compare
exactly when the stored credential starts with "$2" (and then never writes
the store), and through direct string equality otherwise. -/
theorem login_branch_discrimination (store : Store) (body : LoginBody) (env : Env)
    (salt : Nat) (updateOk : Bool) (now : Nat) (user : User)
    (hU : (strTrim (body.username.getD [])).isEmpty = false)
    (hP : (body.password.getD []).isEmpty = false)
    (hFind : findByUsername store (strTrim (body.username.getD [])) = some user) :
    (strStartsWith user.password (str "$2") = true →
       (((handleLogin store body env salt updateOk now).1 =
           .unauthorized (str "Invalid password")) ↔
         bcryptCompare (body.password.getD []) user.password = false)
       ∧ (handleLogin store body env salt updateOk now).2 = store)
  ∧ (strStartsWith user.password (str "$2") = false →
       (((handleLogin store body env salt updateOk now).1 =
           .unauthorized (str "Invalid password")) ↔
         (body.password.getD [] == user.password) = false)) := by
  have hrun := handleLogin_of_found store body env salt updateOk now user hU hP hFind
  constructor
  · intro hB
    rw [hB, if_pos rfl] at hrun
    cases hc : bcryptCompare (body.password.getD []) user.password
    · rw [hc, if_neg Bool.false_ne_true] at hrun
      rw [hrun]
      simp
    · rw [hc, if_pos rfl] at hrun
      rw [hrun]
      refine ⟨?_, issueAndRespond_snd user env now store⟩
      rcases issueAndRespond_cases user env now store with ⟨h1, h2⟩ | ⟨h1, h2⟩ <;>
        rw [h2] <;> simp
  · intro hB
    rw [hB, if_neg Bool.false_ne_true] at hrun
    cases he : (body.password.getD [] == user.password)
    · rw [he, if_neg Bool.false_ne_true] at hrun
      rw [hrun]
      simp
    · rw [he, if_pos rfl] at hrun
      cases updateOk
      · rw [if_neg Bool.false_ne_true] at hrun
        rw [hrun]
        simp
      · rw [if_pos rfl] at hrun
        rw [hrun]
        rcases issueAndRespond_cases user env now
            (store.map fun r =>
              if r.id == user.id then
                { r with password := bcryptHash salt (body.password.getD []), updated_at := now }
              else r) with ⟨h1, h2⟩ | ⟨h1, h2⟩ <;>
          rw [h2] <;> simp

/-- C2 amended: in the legacy branch with a matching plaintext password, a
failing migration write-back sends control to the catch block: the handler
answers 500 "Login failed" with the store untouched, and no token is
issued. -/
theorem login_migration_failure_500 (store : Store) (body : LoginBody) (env : Env)
    (salt : Nat) (now : Nat) (user : User)
    (hU : (strTrim (body.username.getD [])).isEmpty = false)
    (hP : (body.password.getD []).isEmpty = false)
    (hFind : findByUsername store (strTrim (body.username.getD [])) = some user)
    (hLegacy : strStartsWith user.password (str "$2") = false)
    (hMatch : (body.password.getD [] == user.password) = true) :
    handleLogin store body env salt false now =
      (.serverError (str "Login failed"), store) := by
  have hrun := handleLogin_of_found store body env salt false now user hU hP hFind
  rw [hLegacy, if_neg Bool.false_ne_true, hMatch, if_pos rfl,
    if_neg Bool.false_ne_true] at hrun
  exact hrun

/-- C1: whenever the login handler answers 200, the row the username now
maps to in the resulting store carries a credential with the "$2" hash
marker — either it already did (hashed branch, store untouched) or the
migration rewrote it to a bcrypt hash before the response was returned. -/
theorem login_success_stored_hashed (store : Store) (body : LoginBody) (env : Env)
    (salt : Nat) (updateOk : Bool) (now : Nat)
    (m : Str) (t : Token) (u : SafeUser) (user' : User)
    (hs : (handleLogin store body env salt updateOk now).1 = .success m t u)
    (hFind : findByUsername (handleLogin store body env salt updateOk now).2
               (strTrim (body.username.getD [])) = some user') :
    strStartsWith user'.password (str "$2") = true := by
  cases hU : (strTrim (body.username.getD [])).isEmpty
  case true =>
    rw [handleLogin_of_empty store body env salt updateOk now (Or.inl hU)] at hs
    exact absurd hs (by simp)
  cases hP : (body.password.getD []).isEmpty
  case true =>
    rw [handleLogin_of_empty store body env salt updateOk now (Or.inr hP)] at hs
    exact absurd hs (by simp)
  cases hfind0 : findByUsername store (strTrim (body.username.getD []))
  case none =>
    rw [handleLogin_of_notfound store body env salt updateOk now hU hP hfind0] at hs
    exact absurd hs (by simp)
  case some user =>
  have hrun := handleLogin_of_found store body env salt updateOk now user hU hP hfind0
  cases hB : strStartsWith user.password (str "$2")
  · rw [hB, if_neg Bool.false_ne_true] at hrun
    cases he : (body.password.getD [] == user.password)
    · rw [he, if_neg Bool.false_ne_true] at hrun
      rw [hrun] at hs
      exact absurd hs (by simp)
    · rw [he, if_pos rfl] at hrun
      cases updateOk
      · rw [if_neg Bool.false_ne_true] at hrun
        rw [hrun] at hs
        exact absurd hs (by simp)
      · rw [if_pos rfl] at hrun
        rw [hrun] at hFind
        rw [issueAndRespond_snd] at hFind
        rw [findByUsername_migrate store _ user _ now hfind0] at hFind
        have huser : user' =
            { user with password := bcryptHash salt (body.password.getD []), updated_at := now } :=
          (Option.some_inj.mp hFind).symm
        rw [huser]
        exact bcryptHash_marker salt (body.password.getD [])
  · rw [hB, if_pos rfl] at hrun
    cases hc : bcryptCompare (body.password.getD []) user.password
    · rw [hc, if_neg Bool.false_ne_true] at hrun
      rw [hrun] at hs
      exact absurd hs (by simp)
    · rw [hc, if_pos rfl] at hrun
      rw [hrun] at hFind
      rw [issueAndRespond_snd] at hFind
      rw [hfind0] at hFind
      have huser : user' = user := (Option.some_inj.mp hFind).symm
      rw [huser]
      exact hB

end Backend

namespace Backend

/-- Inversion of a 200 login response: the lookup found a row, the secret
resolved non-empty, and the payload is the issued token and the row minus
its password. -/
theorem login_success_inv (store : Store) (body : LoginBody) (env : Env)
    (salt : Nat) (updateOk : Bool) (now : Nat) (m : Str) (t : Token) (u : SafeUser)
    (hs : (handleLogin store body env salt updateOk now).1 = .success m t u) :
    ∃ user, findByUsername store (strTrim (body.username.getD [])) = some user
      ∧ (resolveSecret env).isEmpty = false
      ∧ m = str "Login successful"
      ∧ t = jwtSign ⟨str "user", user.id, user.fullname, user.lastname, user.status⟩
            (resolveSecret env) now
      ∧ u = omitPassword user := by
  cases hU : (strTrim (body.username.getD [])).isEmpty
  case true =>
    rw [handleLogin_of_empty store body env salt updateOk now (Or.inl hU)] at hs
    exact absurd hs (by simp)
  cases hP : (body.password.getD []).isEmpty
  case true =>
    rw [handleLogin_of_empty store body env salt updateOk now (Or.inr hP)] at hs
    exact absurd hs (by simp)
  cases hfind0 : findByUsername store (strTrim (body.username.getD []))
  case none =>
    rw [handleLogin_of_notfound store body env salt updateOk now hU hP hfind0] at hs
    exact absurd hs (by simp)
  case some user =>
  refine ⟨user, rfl, ?_⟩
  have hrun := handleLogin_of_found store body env salt updateOk now user hU hP hfind0
  cases hB : strStartsWith user.password (str "$2")
  · rw [hB, if_neg Bool.false_ne_true] at hrun
    cases he : (body.password.getD [] == user.password)
    · rw [he, if_neg Bool.false_ne_true] at hrun
      rw [hrun] at hs
      exact absurd hs (by simp)
    · rw [he, if_pos rfl] at hrun
      cases updateOk
      · rw [if_neg Bool.false_ne_true] at hrun
        rw [hrun] at hs
        exact absurd hs (by simp)
      · rw [if_pos rfl] at hrun
        rcases issueAndRespond_cases user env now
            (store.map fun r =>
              if r.id == user.id then
                { r with password := bcryptHash salt (body.password.getD []), updated_at := now }
              else r) with ⟨h1, h2⟩ | ⟨h1, h2⟩
        · rw [hrun, h2] at hs
          exact absurd hs (by simp)
        · rw [hrun, h2] at hs
          injection hs with e1 e2 e3
          exact ⟨h1, e1.symm, e2.symm, e3.symm⟩
  · rw [hB, if_pos rfl] at hrun
    cases hc : bcryptCompare (body.password.getD []) user.password
    · rw [hc, if_neg Bool.false_ne_true] at hrun
      rw [hrun] at hs
      exact absurd hs (by simp)
    · rw [hc, if_pos rfl] at hrun
      rcases issueAndRespond_cases user env now store with ⟨h1, h2⟩ | ⟨h1, h2⟩
      · rw [hrun, h2] at hs
        exact absurd hs (by simp)
      · rw [hrun, h2] at hs
        injection hs with e1 e2 e3
        exact ⟨h1, e1.symm, e2.symm, e3.symm⟩

/-- C3: with the secret resolving empty under both accepted environment
names, the issuance tail always answers the 500 config error, the login
handler can never answer 200, and the verifier answers the 500 config error
whenever a non-empty token is present and can never accept one. -/
theorem missing_secret_fail_closed (env : Env)
    (hsec : resolveSecret env = []) :
    (∀ (user : User) (now : Nat) (s : Store),
       issueAndRespond user env now s = (.serverError (str "Server missing SECRET_KEY"), s))
  ∧ (∀ (store : Store) (body : LoginBody) (salt : Nat) (updateOk : Bool) (now : Nat)
       (m : Str) (t : Token) (u : SafeUser),
       (handleLogin store body env salt updateOk now).1 ≠ .success m t u)
  ∧ (∀ (header : Option Str) (decode : Str → Str → Option Claims),
       (extractToken (header.getD [])).isEmpty = false →
       verifyToken header env decode = .missingSecret)
  ∧ (∀ (header : Option Str) (decode : Str → Str → Option Claims) (c : Claims),
       verifyToken header env decode ≠ .ok c) := by
  have hempty : (resolveSecret env).isEmpty = true := by rw [hsec]; rfl
  refine ⟨?_, ?_, ?_, ?_⟩
  · intro user now s
    rcases issueAndRespond_cases user env now s with ⟨h1, h2⟩ | ⟨h1, h2⟩
    · exact h2
    · rw [hempty] at h1
      exact absurd h1 (by simp)
  · intro store body salt updateOk now m t u hs
    obtain ⟨user, _, hne, _⟩ := login_success_inv store body env salt updateOk now m t u hs
    rw [hempty] at hne
    exact absurd hne (by simp)
  · intro header decode ht
    simp [verifyToken, ht, hempty]
  · intro header decode c h
    cases ht : (extractToken (header.getD [])).isEmpty
    · simp [verifyToken, ht, hempty] at h
    · simp [verifyToken, ht] at h

/-- C8: a 200 login response carries exactly the token signed over
role "user" and the row's id, fullname, lastname and status, expiring 3600
seconds after issuance, and the payload user is the row with the password
field omitted; moreover the registration response never depends on the
submitted password value (password-blind), so no password reaches a login
or registration payload. -/
theorem login_token_claims_and_payload (store : Store) (body : LoginBody) (env : Env)
    (salt : Nat) (updateOk : Bool) (now : Nat) (user : User) (m : Str) (t : Token) (u : SafeUser)
    (hFind : findByUsername store (strTrim (body.username.getD [])) = some user)
    (hs : (handleLogin store body env salt updateOk now).1 = .success m t u) :
    m = str "Login successful"
  ∧ t = jwtSign ⟨str "user", user.id, user.fullname, user.lastname, user.status⟩
        (resolveSecret env) now
  ∧ t.exp = t.iat + 3600 ∧ t.iat = now
  ∧ u = omitPassword user
  ∧ (∀ (rstore : Store) (b b' : RegisterBody) (salt' newId : Nat) (insertOk : Bool) (now' : Nat),
       b.firstname = b'.firstname → b.fullname = b'.fullname → b.lastname = b'.lastname →
       b.username = b'.username → b.address = b'.address → b.sex = b'.sex →
       b.birthday = b'.birthday →
       (b.password.getD []).isEmpty = false → (b'.password.getD []).isEmpty = false →
       (handleRegister rstore b salt' newId insertOk now').1 =
         (handleRegister rstore b' salt' newId insertOk now').1) := by
  obtain ⟨user0, hfind0, hne, hm, ht, hu⟩ :=
    login_success_inv store body env salt updateOk now m t u hs
  have huser : user0 = user := Option.some_inj.mp (hfind0.symm.trans hFind)
  subst huser
  refine ⟨hm, ht, ?_, ?_, hu, ?_⟩
  · rw [ht]; rfl
  · rw [ht]; rfl
  · intro rstore b b' salt' newId insertOk now' h1 h2 h3 h4 h5 h6 h7 hp hp'
    simp only [handleRegister, h1, h2, h3, h4, h5, h6, h7, hp, hp']
    split
    · rfl
    · split
      · rfl
      · split
        · rfl
        · split <;> rfl

/-- C9: the verifier's token-presence check runs before its secret check:
an empty extracted token answers 401 missing-token whatever the
environment, and the 500 missing-secret answer occurs exactly when a
non-empty token was extracted while the secret resolves empty. -/
theorem token_presence_check_first (header : Option Str) (env : Env)
    (decode : Str → Str → Option Claims) :
    ((extractToken (header.getD [])).isEmpty = true →
       verifyToken header env decode = .missingToken)
  ∧ (verifyToken header env decode = .missingSecret →
       (extractToken (header.getD [])).isEmpty = false
       ∧ (resolveSecret env).isEmpty = true) := by
  constructor
  · intro h
    simp [verifyToken, h]
  · intro h
    cases ht : (extractToken (header.getD [])).isEmpty
    · cases hsec : (resolveSecret env).isEmpty
      · exfalso
        cases hd : decode (extractToken (header.getD [])) (resolveSecret env) <;>
          simp [verifyToken, ht, hsec, hd] at h
      · exact ⟨rfl, rfl⟩
    · exfalso
      simp [verifyToken, ht] at h

/-- C5 amended: the scheme marker "Bearer " is required case-sensitively;
the remainder after it is trimmed of surrounding whitespace and used as the
token, extra separating or trailing spaces being tolerated rather than
treated as malformed; an absent header, a different scheme, or a
whitespace-only remainder answers 401 missing-token before any token
parsing, and with the secret configured every extracted token that fails
decoding — invalid signature, malformed structure or expired — collapses to
the single generic 401 invalid-token answer. -/
theorem verifier_trims_bearer_remainder (header : Option Str) (env : Env)
    (decode : Str → Str → Option Claims) :
    (strStartsWith (header.getD []) (str "Bearer ") = false →
       verifyToken header env decode = .missingToken)
  ∧ (strStartsWith (header.getD []) (str "Bearer ") = true →
       (strTrim ((header.getD []).drop 7)).isEmpty = true →
       verifyToken header env decode = .missingToken)
  ∧ (strStartsWith (header.getD []) (str "Bearer ") = true →
       (strTrim ((header.getD []).drop 7)).isEmpty = false →
       (resolveSecret env).isEmpty = false →
       (decode (strTrim ((header.getD []).drop 7)) (resolveSecret env) = none →
          verifyToken header env decode = .invalidToken)
       ∧ (∀ c, decode (strTrim ((header.getD []).drop 7)) (resolveSecret env) = some c →
          verifyToken header env decode = .ok c)) := by
  refine ⟨?_, ?_, ?_⟩
  · intro h
    simp [verifyToken, extractToken, h]
  · intro h he
    simp [verifyToken, extractToken, h, he]
  · intro h he hsec
    constructor
    · intro hd
      simp [verifyToken, extractToken, h, he, hsec, hd]
    · intro c hd
      simp [verifyToken, extractToken, h, he, hsec, hd]

/-- C5 counterexample: the header "Bearer  abc" (two separating spaces) is
not of the strict single-space form, yet the code's verifier extracts the
trimmed token "abc" and accepts it, where the strict verifier modelled from
the spec would pass the verbatim remainder " abc" to decoding and reject. -/
theorem verifier_not_strict_counterexample :
    verifyToken (some (str "Bearer  abc")) sampleEnv sampleDecode = .ok sampleClaims
  ∧ verifyTokenSpec (some (str "Bearer  abc")) sampleEnv sampleDecode = .invalidToken := by
  constructor <;> decide

end Backend

namespace Backend

/-- Password effect of one application of the second variant's SET list:
either the password column is not in the list and the row keeps its value,
or it receives a bcrypt hash. -/
theorem applyUserUpdate_password (body : UpdateBody) (salt now : Nat) (r : User) :
    (applyUserUpdate body salt now r).password = r.password
    ∨ ∃ pw, (applyUserUpdate body salt now r).password = bcryptHash salt pw := by
  cases hb : body.password with
  | none => exact Or.inl (by simp [applyUserUpdate, hb])
  | some pw => exact Or.inr ⟨pw, by simp [applyUserUpdate, hb]⟩

/-- Password effect of one application of the first variant's SET list. -/
theorem applyUserUpdateV1_password (body : UpdateBody) (salt now : Nat) (r : User) :
    (applyUserUpdateV1 body salt now r).password = r.password
    ∨ ∃ pw, (applyUserUpdateV1 body salt now r).password = bcryptHash salt pw := by
  cases hb : body.password with
  | none => exact Or.inl (by simp [applyUserUpdateV1, hb])
  | some pw => exact Or.inr ⟨pw, by simp [applyUserUpdateV1, hb]⟩

/-- Rows after runUpdate: each comes from a pre-state row, either verbatim
or through the SET-list application. -/
theorem runUpdate_mem (store : Store) (id : Nat) (apply : User → User)
    (updateOk : Bool) (r : User)
    (hr : r ∈ (runUpdate store id apply updateOk).2) :
    ∃ r₀, r₀ ∈ store ∧ (r = r₀ ∨ r = apply r₀) := by
  unfold runUpdate at hr
  cases updateOk
  · rw [if_neg Bool.false_ne_true] at hr
    exact ⟨r, hr, Or.inl rfl⟩
  · rw [if_pos rfl] at hr
    by_cases h : (store.any fun x => x.id == id) = true
    · rw [if_pos h] at hr
      simp only [List.mem_map] at hr
      obtain ⟨r₀, hr₀, heq⟩ := hr
      refine ⟨r₀, hr₀, ?_⟩
      by_cases hid : (r₀.id == id) = true
      · rw [hid, if_pos rfl] at heq
        exact Or.inr heq.symm
      · rw [if_neg hid] at heq
        exact Or.inl heq.symm
    · rw [if_neg h] at hr
      exact ⟨r, hr, Or.inl rfl⟩

/-- Rows after updateUserTail: each comes from a pre-state row, verbatim or
through the SET-list application. -/
theorem updateUserTail_mem (store : Store) (id : Nat) (body : UpdateBody)
    (salt : Nat) (updateOk : Bool) (now : Nat) (r : User)
    (hr : r ∈ (updateUserTail store id body salt updateOk now).2) :
    ∃ r₀, r₀ ∈ store ∧ (r = r₀ ∨ r = applyUserUpdate body salt now r₀) := by
  cases hpw : body.password with
  | none =>
    simp only [updateUserTail, hpw] at hr
    by_cases hf : fieldsProvided body = true
    · rw [hf, if_pos rfl] at hr
      exact runUpdate_mem store id _ updateOk r hr
    · rw [if_neg hf] at hr
      exact ⟨r, hr, Or.inl rfl⟩
  | some pw =>
    simp only [updateUserTail, hpw] at hr
    by_cases he : pw.isEmpty = true
    · rw [he, if_pos rfl] at hr
      exact ⟨r, hr, Or.inl rfl⟩
    · rw [if_neg he] at hr
      exact runUpdate_mem store id _ updateOk r hr

/-- Rows after usersUpdateTail: each comes from a pre-state row, verbatim
or through the first variant's SET-list application. -/
theorem usersUpdateTail_mem (store : Store) (id : Nat) (body : UpdateBody)
    (salt : Nat) (updateOk : Bool) (now : Nat) (r : User)
    (hr : r ∈ (usersUpdateTail store id body salt updateOk now).2) :
    ∃ r₀, r₀ ∈ store ∧ (r = r₀ ∨ r = applyUserUpdateV1 body salt now r₀) := by
  cases hpw : body.password with
  | none =>
    simp only [usersUpdateTail, hpw] at hr
    by_cases hf : fieldsProvidedV1 body = true
    · rw [hf, if_pos rfl] at hr
      exact runUpdate_mem store id _ updateOk r hr
    · rw [if_neg hf] at hr
      exact ⟨r, hr, Or.inl rfl⟩
  | some pw =>
    simp only [usersUpdateTail, hpw] at hr
    by_cases he : pw.isEmpty = true
    · rw [he, if_pos rfl] at hr
      exact ⟨r, hr, Or.inl rfl⟩
    · rw [if_neg he] at hr
      exact runUpdate_mem store id _ updateOk r hr

/-- Rows after updateUser: each comes from a pre-state row, verbatim or
through the SET-list application. -/
theorem updateUser_mem (store : Store) (rawId : Option Int) (body : UpdateBody)
    (salt : Nat) (updateOk : Bool) (now : Nat) (r : User)
    (hr : r ∈ (updateUser store rawId body salt updateOk now).2) :
    ∃ r₀, r₀ ∈ store ∧ (r = r₀ ∨ r = applyUserUpdate body salt now r₀) := by
  cases rawId with
  | none =>
    simp only [updateUser] at hr
    exact ⟨r, hr, Or.inl rfl⟩
  | some i =>
    simp only [updateUser] at hr
    by_cases hi : i ≤ 0
    · rw [if_pos hi] at hr
      exact ⟨r, hr, Or.inl rfl⟩
    · rw [if_neg hi] at hr
      cases hun : body.username with
      | none =>
        simp only [hun] at hr
        exact updateUserTail_mem store i.toNat body salt updateOk now r hr
      | some raw =>
        simp only [hun] at hr
        by_cases hemp : (strTrim raw).isEmpty = true
        · rw [hemp, if_pos rfl] at hr
          exact ⟨r, hr, Or.inl rfl⟩
        · rw [if_neg hemp] at hr
          by_cases hdup : (store.any fun x => x.username == strTrim raw && !(x.id == i.toNat)) = true
          · rw [if_pos hdup] at hr
            exact ⟨r, hr, Or.inl rfl⟩
          · rw [if_neg hdup] at hr
            exact updateUserTail_mem store i.toNat body salt updateOk now r hr

/-- Rows after usersUpdate: each comes from a pre-state row, verbatim or
through the first variant's SET-list application. -/
theorem usersUpdate_mem (store : Store) (rawId : Option Int) (body : UpdateBody)
    (salt : Nat) (updateOk : Bool) (now : Nat) (r : User)
    (hr : r ∈ (usersUpdate store rawId body salt updateOk now).2) :
    ∃ r₀, r₀ ∈ store ∧ (r = r₀ ∨ r = applyUserUpdateV1 body salt now r₀) := by
  cases rawId with
  | none =>
    simp only [usersUpdate] at hr
    exact ⟨r, hr, Or.inl rfl⟩
  | some i =>
    simp only [usersUpdate] at hr
    by_cases hi : i ≤ 0
    · rw [if_pos hi] at hr
      exact ⟨r, hr, Or.inl rfl⟩
    · rw [if_neg hi] at hr
      cases hun : body.username with
      | none =>
        simp only [hun] at hr
        exact usersUpdateTail_mem store i.toNat body salt updateOk now r hr
      | some raw =>
        simp only [hun] at hr
        by_cases hemp : (strTrim raw).isEmpty = true
        · rw [hemp, if_pos rfl] at hr
          exact ⟨r, hr, Or.inl rfl⟩
        · rw [if_neg hemp] at hr
          by_cases hdup : (store.any fun x => x.username == strTrim raw && !(x.id == i.toNat)) = true
          · rw [if_pos hdup] at hr
            exact ⟨r, hr, Or.inl rfl⟩
          · rw [if_neg hdup] at hr
            exact usersUpdateTail_mem store i.toNat body salt updateOk now r hr

/-- Rows after handleRegister: each was already there or is the freshly
inserted row whose credential is a bcrypt hash. -/
theorem handleRegister_mem (store : Store) (body : RegisterBody) (salt newId : Nat)
    (insertOk : Bool) (now : Nat) (r : User)
    (hr : r ∈ (handleRegister store body salt newId insertOk now).2) :
    r ∈ store ∨ r.password = bcryptHash salt (body.password.getD []) := by
  simp only [handleRegister] at hr
  by_cases h1 : (strTrim (body.username.getD [])).isEmpty = true
  · rw [h1, if_pos rfl] at hr
    exact Or.inl hr
  · rw [if_neg h1] at hr
    by_cases h2 : (body.password.getD []).isEmpty = true
    · rw [h2, if_pos rfl] at hr
      exact Or.inl hr
    · rw [if_neg h2] at hr
      by_cases h3 : (findByUsername store (strTrim (body.username.getD []))).isSome = true
      · rw [if_pos h3] at hr
        exact Or.inl hr
      · rw [if_neg h3] at hr
        cases insertOk
        · rw [if_neg Bool.false_ne_true] at hr
          exact Or.inl hr
        · rw [if_pos rfl] at hr
          rcases List.mem_append.mp hr with h | h
          · exact Or.inl h
          · simp at h
            exact Or.inr (by rw [h])

/-- Rows after usersCreate: each was already there or is the freshly
inserted row whose credential is a bcrypt hash. -/
theorem usersCreate_mem (store : Store) (body : RegisterBody) (salt newId : Nat)
    (insertOk : Bool) (now : Nat) (r : User)
    (hr : r ∈ (usersCreate store body salt newId insertOk now).2) :
    r ∈ store ∨ r.password = bcryptHash salt (body.password.getD []) := by
  simp only [usersCreate] at hr
  by_cases h1 : (strTrim (body.username.getD [])).isEmpty = true
  · rw [h1, if_pos rfl] at hr
    exact Or.inl hr
  · rw [if_neg h1] at hr
    by_cases h2 : (body.password.getD []).isEmpty = true
    · rw [h2, if_pos rfl] at hr
      exact Or.inl hr
    · rw [if_neg h2] at hr
      by_cases h3 : (findByUsername store (strTrim (body.username.getD []))).isSome = true
      · rw [if_pos h3] at hr
        exact Or.inl hr
      · rw [if_neg h3] at hr
        cases insertOk
        · rw [if_neg Bool.false_ne_true] at hr
          exact Or.inl hr
        · rw [if_pos rfl] at hr
          rcases List.mem_append.mp hr with h | h
          · exact Or.inl h
          · simp at h
            exact Or.inr (by rw [h])

end Backend

namespace Backend

/-- C10: bcrypt output always satisfies the "$2" discrimination rule, and
every password value present after registration (either route variant) or
after a user update (either handler) was either already stored before the
call or is a bcrypt hash carrying the "$2" marker — the submitted plaintext
is never written by these handlers. -/
theorem non_login_password_writes_hashed :
    (∀ (salt : Nat) (pw : Str), strStartsWith (bcryptHash salt pw) (str "$2") = true)
  ∧ (∀ (store : Store) (body : RegisterBody) (salt newId : Nat) (insertOk : Bool)
       (now : Nat) (r : User),
       r ∈ (handleRegister store body salt newId insertOk now).2 →
       r ∈ store ∨ strStartsWith r.password (str "$2") = true)
  ∧ (∀ (store : Store) (body : RegisterBody) (salt newId : Nat) (insertOk : Bool)
       (now : Nat) (r : User),
       r ∈ (usersCreate store body salt newId insertOk now).2 →
       r ∈ store ∨ strStartsWith r.password (str "$2") = true)
  ∧ (∀ (store : Store) (rawId : Option Int) (body : UpdateBody) (salt : Nat)
       (updateOk : Bool) (now : Nat) (r : User),
       r ∈ (updateUser store rawId body salt updateOk now).2 →
       (∃ r₀, r₀ ∈ store ∧ r.password = r₀.password)
       ∨ strStartsWith r.password (str "$2") = true)
  ∧ (∀ (store : Store) (rawId : Option Int) (body : UpdateBody) (salt : Nat)
       (updateOk : Bool) (now : Nat) (r : User),
       r ∈ (usersUpdate store rawId body salt updateOk now).2 →
       (∃ r₀, r₀ ∈ store ∧ r.password = r₀.password)
       ∨ strStartsWith r.password (str "$2") = true) := by
  refine ⟨bcryptHash_marker, ?_, ?_, ?_, ?_⟩
  · intro store body salt newId insertOk now r hr
    rcases handleRegister_mem store body salt newId insertOk now r hr with h | h
    · exact Or.inl h
    · exact Or.inr (by rw [h]; exact bcryptHash_marker _ _)
  · intro store body salt newId insertOk now r hr
    rcases usersCreate_mem store body salt newId insertOk now r hr with h | h
    · exact Or.inl h
    · exact Or.inr (by rw [h]; exact bcryptHash_marker _ _)
  · intro store rawId body salt updateOk now r hr
    obtain ⟨r₀, hr₀, h | h⟩ := updateUser_mem store rawId body salt updateOk now r hr
    · exact Or.inl ⟨r₀, hr₀, by rw [h]⟩
    · rcases applyUserUpdate_password body salt now r₀ with hp | ⟨pw, hp⟩
      · exact Or.inl ⟨r₀, hr₀, by rw [h, hp]⟩
      · exact Or.inr (by rw [h, hp]; exact bcryptHash_marker _ _)
  · intro store rawId body salt updateOk now r hr
    obtain ⟨r₀, hr₀, h | h⟩ := usersUpdate_mem store rawId body salt updateOk now r hr
    · exact Or.inl ⟨r₀, hr₀, by rw [h]⟩
    · rcases applyUserUpdateV1_password body salt now r₀ with hp | ⟨pw, hp⟩
      · exact Or.inl ⟨r₀, hr₀, by rw [h, hp]⟩
      · exact Or.inr (by rw [h, hp]; exact bcryptHash_marker _ _)

/-- C2 counterexample: identical legacy-plaintext login request with the
correct password and the secret configured — when the migration write-back
succeeds the handler answers 200, but when the write-back fails the very
same request answers 500 "Login failed" instead of the success response, so
authentication success is not isolated from the write-back outcome. -/
theorem login_migration_failure_counterexample :
    (handleLogin sampleStore sampleBody sampleEnv 7 false 100).1
      = .serverError (str "Login failed")
  ∧ (handleLogin sampleStore sampleBody sampleEnv 7 true 100).1
      = .success (str "Login successful")
          (jwtSign ⟨str "user", 1, str "John A", str "Doe", str "active"⟩ (str "s") 100)
          (omitPassword sampleUser) := by
  constructor <;> decide

/-- Witness for C1: the concrete migration run leaves the row hashed. -/
theorem login_success_stored_hashed_witness :
    strStartsWith
      ({ sampleUser with password := bcryptHash 7 (str "1234"), updated_at := 100 } : User).password
      (str "$2") = true :=
  login_success_stored_hashed sampleStore sampleBody sampleEnv 7 true 100
    (str "Login successful")
    (jwtSign ⟨str "user", 1, str "John A", str "Doe", str "active"⟩ (str "s") 100)
    (omitPassword sampleUser)
    { sampleUser with password := bcryptHash 7 (str "1234"), updated_at := 100 }
    (by decide) (by decide)

/-- Witness for the amended C2: the concrete failing write-back run. -/
theorem login_migration_failure_500_witness :
    handleLogin sampleStore sampleBody sampleEnv 7 false 100 =
      (.serverError (str "Login failed"), sampleStore) :=
  login_migration_failure_500 sampleStore sampleBody sampleEnv 7 100 sampleUser
    (by decide) (by decide) (by decide) (by decide) (by decide)

/-- Witness for C3 at the fully unset environment. -/
theorem missing_secret_fail_closed_witness :
    issueAndRespond sampleUser ⟨[], []⟩ 100 sampleStore
      = (.serverError (str "Server missing SECRET_KEY"), sampleStore)
  ∧ (handleLogin sampleStore sampleBody ⟨[], []⟩ 7 true 100).1
      ≠ .success (str "Login successful") (jwtSign sampleClaims [] 100) (omitPassword sampleUser)
  ∧ verifyToken (some (str "Bearer abc")) ⟨[], []⟩ sampleDecode = .missingSecret
  ∧ verifyToken (some (str "Bearer abc")) ⟨[], []⟩ sampleDecode ≠ .ok sampleClaims := by
  obtain ⟨h1, h2, h3, h4⟩ := missing_secret_fail_closed ⟨[], []⟩ (by decide)
  exact ⟨h1 sampleUser 100 sampleStore,
    h2 sampleStore sampleBody 7 true 100 _ _ _,
    h3 (some (str "Bearer abc")) sampleDecode (by decide),
    h4 (some (str "Bearer abc")) sampleDecode sampleClaims⟩

/-- Witness for C4 at the concrete legacy row. -/
theorem login_branch_discrimination_witness :
    ((handleLogin sampleStore sampleBody sampleEnv 7 true 100).1 =
        .unauthorized (str "Invalid password")) ↔
      ((sampleBody.password.getD [] == sampleUser.password) = false) :=
  (login_branch_discrimination sampleStore sampleBody sampleEnv 7 true 100 sampleUser
    (by decide) (by decide) (by decide)).2 (by decide)

/-- Witness for the amended C5: extra and trailing spaces around the token
are tolerated and the trimmed token is decoded. -/
theorem verifier_trims_bearer_remainder_witness :
    verifyToken (some (str "Bearer  abc ")) sampleEnv sampleDecode = .ok sampleClaims :=
  ((verifier_trims_bearer_remainder (some (str "Bearer  abc ")) sampleEnv sampleDecode).2.2
    (by decide) (by decide) (by decide)).2 sampleClaims (by decide)

/-- Witness for C6 at a concrete wrong-password run. -/
theorem login_wrong_password_unauthorized_witness :
    handleLogin sampleStore ⟨some (str "john"), some (str "wrong")⟩ sampleEnv 7 true 100 =
      (.unauthorized (str "Invalid password"), sampleStore) :=
  login_wrong_password_unauthorized sampleStore ⟨some (str "john"), some (str "wrong")⟩
    sampleEnv 7 true 100 sampleUser (by decide) (by decide) (by decide) (by decide)

/-- Witness for C7 at a whitespace-only username. -/
theorem login_empty_input_bad_request_witness :
    handleLogin sampleStore ⟨some (str "   "), some (str "1234")⟩ sampleEnv 7 true 100 =
      (.badRequest (str "username/password is required"), sampleStore) :=
  (login_empty_input_bad_request sampleStore ⟨some (str "   "), some (str "1234")⟩
    sampleEnv 7 true 100 (Or.inl (by decide))).1

/-- Witness for C8 at the concrete migration run. -/
theorem login_token_claims_and_payload_witness :
    (jwtSign sampleClaims (str "s") 100).exp = (jwtSign sampleClaims (str "s") 100).iat + 3600 :=
  (login_token_claims_and_payload sampleStore sampleBody sampleEnv 7 true 100 sampleUser
    (str "Login successful") (jwtSign sampleClaims (str "s") 100) (omitPassword sampleUser)
    (by decide) (by decide)).2.2.1

/-- Witness for C9: a lowercase scheme answers missing-token even though
the environment has no secret at all. -/
theorem token_presence_check_first_witness :
    verifyToken (some (str "bearer abc")) ⟨[], []⟩ sampleDecode = .missingToken :=
  (token_presence_check_first (some (str "bearer abc")) ⟨[], []⟩ sampleDecode).1 (by decide)

/-- Witness for C10 at a concrete registration into the empty store. -/
theorem non_login_password_writes_hashed_witness :
    (⟨2, [], [], [], str "jane", bcryptHash 3 (str "pw"), [], [], [], str "active", 9⟩ : User)
        ∈ ([] : Store)
    ∨ strStartsWith
        (⟨2, [], [], [], str "jane", bcryptHash 3 (str "pw"), [], [], [], str "active", 9⟩ : User).password
        (str "$2") = true :=
  non_login_password_writes_hashed.2.1 []
    ⟨none, none, none, some (str "jane"), some (str "pw"), none, none, none⟩ 3 2 true 9
    ⟨2, [], [], [], str "jane", bcryptHash 3 (str "pw"), [], [], [], str "active", 9⟩
    (by decide)

end Backend
